import Mathlib

/-!
Shallow embedding of the Bticino X8000 Home Assistant integration
(custom_components/bticino_x8000): the resilient API client (api.py),
the polling / webhook reconciliation coordinator (coordinator.py), the
startup token-refresh scheduler (the component init module) and the
climate command payload builder (climate.py).

HTTP traffic is modelled as an explicit trace: a list of
(status code, parsed JSON body) pairs consumed one per physical network
attempt, plus a list of token-refresh outcomes consumed one per refresh
attempt.  Response bodies are modelled as already-parsed JSON values.
Python runtime errors raised by attribute access, membership tests and
indexing on ill-typed values are modelled with an explicit `PyErr`
error monad, since several properties hinge on exactly which payloads
make the code raise.
-/

namespace Bticino

/-- JSON values, as produced by `json.loads`.  Numbers are modelled as
rationals (covering both ints and floats of the payloads). -/
inductive Json where
  | null : Json
  | bool (b : Bool) : Json
  | num (q : Rat) : Json
  | str (s : String) : Json
  | arr (xs : List Json) : Json
  | obj (kvs : List (String × Json)) : Json

/-- Python type name of a JSON value (used in error messages). -/
def Json.typeName : Json → String
  | .null => "NoneType"
  | .bool _ => "bool"
  | .num _ => "float"
  | .str _ => "str"
  | .arr _ => "list"
  | .obj _ => "dict"

/-- Python exceptions that the embedded code can raise. -/
inductive PyErr where
  | attributeError (typeName attr : String) : PyErr
  | typeError (msg : String) : PyErr
  | keyError (key : String) : PyErr
  | indexError : PyErr

/-- The rendering `str(err)` as inspected by the coordinator error handler. -/
def PyErr.message : PyErr → String
  | .attributeError t a => t ++ " object has no attribute " ++ a
  | .typeError m => m
  | .keyError k => "KeyError: " ++ k
  | .indexError => "list index out of range"

/-- Substring test on character lists (Python `needle in haystack` for
strings). -/
def charsContain (haystack needle : List Char) : Bool :=
  match haystack with
  | [] => needle.isEmpty
  | _ :: rest =>
      needle.isPrefixOf haystack || charsContain rest needle

/-- Python `needle in haystack` for strings. -/
def strContains (haystack needle : String) : Bool :=
  charsContain haystack.data needle.data

/-- Association-list lookup (Python `d[k]` on a dict that has the key,
and the lookup part of `d.get`). -/
def lookupKey : List (String × Json) → String → Option Json
  | [], _ => none
  | (k', v) :: rest, k => if k' = k then some v else lookupKey rest k

/-- Python `d[k] = v` on a dict: whole-value replace of the binding,
keeping other keys.  This single write primitive is used by both the
poll path (`data[topology_id] = chrono_list[0]`) and the webhook path
(`self.data[topology_id] = chrono`). -/
def setKey : List (String × Json) → String → Json → List (String × Json)
  | [], k, v => [(k, v)]
  | (k', v') :: rest, k, v =>
      if k' = k then (k, v) :: rest else (k', v') :: setKey rest k v

/-- Python `x.get(k, default)`: succeeds on dicts, raises
`AttributeError` on every other value. -/
def dictGet (x : Json) (k : String) (default : Json) : Except PyErr Json :=
  match x with
  | .obj kvs => .ok ((lookupKey kvs k).getD default)
  | other => .error (.attributeError other.typeName "get")

/-- Python `k in x` for a string `k`: key test on dicts, element test on
lists, substring test on strings, `TypeError` otherwise. -/
def pyContains (k : String) (x : Json) : Except PyErr Bool :=
  match x with
  | .obj kvs => .ok ((lookupKey kvs k).isSome)
  | .arr xs => .ok (xs.any fun j => match j with | .str s => s = k | _ => false)
  | .str s => .ok (strContains s k)
  | other =>
      .error (.typeError ("argument of type " ++ other.typeName ++ " is not iterable"))

/-- Python `x[k]` for a string key `k`: dict lookup (`KeyError` when the
key is missing), `TypeError` on strings and lists, `TypeError` /
unsubscriptable on the rest. -/
def pyIndexStr (x : Json) (k : String) : Except PyErr Json :=
  match x with
  | .obj kvs =>
      match lookupKey kvs k with
      | some v => .ok v
      | none => .error (.keyError k)
  | .str _ => .error (.typeError "string indices must be integers")
  | .arr _ => .error (.typeError "list indices must be integers or slices, not str")
  | other =>
      .error (.typeError (other.typeName ++ " object is not subscriptable"))

/-- Python `x[0]`: head of a list (`IndexError` when empty), first
character of a string, `TypeError` / `KeyError` otherwise. -/
def pyIndexZero (x : Json) : Except PyErr Json :=
  match x with
  | .arr [] => .error .indexError
  | .arr (v :: _) => .ok v
  | .str s =>
      match s.data with
      | [] => .error .indexError
      | c :: _ => .ok (.str (String.mk [c]))
  | .obj _ => .error (.keyError "0")
  | other =>
      .error (.typeError (other.typeName ++ " object is not subscriptable"))

/-- Python truthiness of a JSON value. -/
def pyTruthy : Json → Bool
  | .null => false
  | .bool b => b
  | .num q => q ≠ 0
  | .str s => s ≠ ""
  | .arr xs => ¬xs.isEmpty
  | .obj kvs => ¬kvs.isEmpty

/-- Python `isinstance(x, dict)`. -/
def Json.isDict : Json → Bool
  | .obj _ => true
  | _ => false

/-- Python `isinstance(x, list)`. -/
def Json.isList : Json → Bool
  | .arr _ => true
  | _ => false

/-- Python `isinstance(x, str)`. -/
def Json.isStr : Json → Bool
  | .str _ => true
  | _ => false

/-! ## api.py — `BticinoX8000Api` -/

/-- The config-entry `data` dict as used by the API client: the stored
bearer token, the subscription key and the stored token expiry
(`access_token_expires_on`, a unix timestamp; absent is `none`). -/
structure ApiData where
  accessToken : String
  subscriptionKey : String
  refreshTokenStr : String
  expiresOn : Option Int

/-- Constructor `BticinoX8000Api.__init__` (api.py lines 23-30): the request header
is built once from the stored data.  No expiry field is read. -/
def mkHeader (accessToken subscriptionKey : String) : List (String × String) :=
  [("Authorization", accessToken),
   ("Ocp-Apim-Subscription-Key", subscriptionKey),
   ("Content-Type", "application/json")]

/-- Mutable client state: `self.header`, rebuilt on token refresh. -/
structure ApiState where
  header : List (String × String)

/-- Outcome of one token-refresh attempt (`refresh_access_token`):
either a fresh access token or a failure (any exception). -/
inductive RefreshOutcome where
  | ok (newToken : String) : RefreshOutcome
  | fail : RefreshOutcome

/-- Method `BticinoX8000Api.handle_unauthorized_error` (api.py lines 57-81),
called with a 401 response: attempts one token refresh; on success
rebuilds `self.header` with the new token and returns `True`; on any
exception returns `False` leaving the header unchanged. -/
def handleUnauthorizedError (st : ApiState) (subscriptionKey : String) :
    RefreshOutcome → Bool × ApiState
  | .ok newToken => (true, { header := mkHeader newToken subscriptionKey })
  | .fail => (false, st)

/-- Result of one API method invocation.  `resp` is the returned dict
`{"status_code": code, "data": body}`; `errorResult` is a returned dict
`{"status_code": code, "error": ...}`; `exhausted` marks a modelling
trace that ended before the call did. -/
inductive CallResult where
  | success (payload : Json) : CallResult
  | resp (code : Nat) (body : Json) : CallResult
  | errorResult (code : Nat) : CallResult
  | exhausted : CallResult

/-- One invocation of `BticinoX8000Api.get_plants` (api.py lines
83-150) run against a trace of (status code, parsed body) network
responses and a trace of refresh outcomes.  Besides the result it
returns the number of physical network attempts and the number of
token-refresh attempts.  A 200 with a `plants` key succeeds; a 200
without it is the parse-error return (status 500); a 401 triggers
`handle_unauthorized_error` and, when the refresh succeeded, an
unconditional recursive retry of the whole call; a 401 whose refresh
failed falls through to the generic error return; any other code is the
generic error return. -/
def getPlants (subscriptionKey : String) (st : ApiState) :
    List (Nat × Json) → List RefreshOutcome → CallResult × Nat × Nat
  | [], _ => (.exhausted, 0, 0)
  | (code, body) :: rest, refreshes =>
    if code = 200 then
      match body with
      | .obj kvs =>
          match lookupKey kvs "plants" with
          | some plants => (.success plants, 1, 0)
          | none => (.errorResult 500, 1, 0)
      | _ => (.errorResult 500, 1, 0)
    else if code = 401 then
      match refreshes with
      | [] => (.exhausted, 1, 0)
      | ro :: refreshes' =>
          match handleUnauthorizedError st subscriptionKey ro with
          | (true, st') =>
              let (r, attempts, refreshCount) := getPlants subscriptionKey st' rest refreshes'
              (r, attempts + 1, refreshCount + 1)
          | (false, _) => (.errorResult 401, 1, 1)
    else (.errorResult code, 1, 0)

/-- One invocation of `BticinoX8000Api.get_chronothermostat_status`
(api.py lines 263-289) run against the same kind of traces.  Also
returns the list of request headers sent, one per physical attempt
(`session.get(url, headers=self.header)`).  Every non-401 status is
returned as `{"status_code": code, "data": body}` with no retry; a 401
triggers `handle_unauthorized_error` and, on refresh success, a
recursive retry with the rebuilt header; on refresh failure the 401
response dict itself is returned. -/
def getChronothermostatStatus (subscriptionKey : String) (st : ApiState) :
    List (Nat × Json) → List RefreshOutcome →
      CallResult × List (List (String × String)) × Nat
  | [], _ => (.exhausted, [], 0)
  | (code, body) :: rest, refreshes =>
    if code = 401 then
      match refreshes with
      | [] => (.exhausted, [st.header], 0)
      | ro :: refreshes' =>
          match handleUnauthorizedError st subscriptionKey ro with
          | (true, st') =>
              let (r, sent, refreshCount) :=
                getChronothermostatStatus subscriptionKey st' rest refreshes'
              (r, st.header :: sent, refreshCount + 1)
          | (false, _) => (.resp 401 body, [st.header], 1)
    else (.resp code body, [st.header], 0)

/-! ## The init module — scheduled token refresh -/

/-- Function `schedule_token_refresh` in the component init module: the delay in
seconds until the next `update_token` run, computed from the stored
`access_token_expires_on` and the current time.  With a known expiry
the refresh fires 300 seconds before it (but never sooner than 60
seconds from now); without one, 3000 seconds from now. -/
def scheduleTokenRefreshDelay (expiresOn : Option Int) (now : Int) : Int :=
  match expiresOn with
  | none => 3000
  | some e => max (e - now - 300) 60

/-! ## coordinator.py — `BticinoCoordinator`, polling side -/

/-- Coordinator state relevant to the polling state machine:
`self.update_interval`, the configured `self.normal_interval` and
`self.cool_down_interval` (in minutes), and `self.api.auth_broken`. -/
structure CoordState where
  updateInterval : Nat
  normalInterval : Nat
  coolDownInterval : Nat
  authBroken : Bool
  deriving Repr, DecidableEq

/-- Constructor `BticinoCoordinator.__init__`: `update_interval` starts at the
configured normal interval and authentication starts unbroken. -/
def initCoordState (normalMinutes coolDownMinutes : Nat) : CoordState :=
  { updateInterval := normalMinutes
    normalInterval := normalMinutes
    coolDownInterval := coolDownMinutes
    authBroken := false }

/-- What one `get_chronothermostat_status` call delivered to the update
loop, as seen by the `try`/`except` ladder of `_async_update_data`:
either a returned response dict (`resp code body`, where `body` is the
dict's `data` field), or one of the exception classes the loop
catches.  The three custom exception classes are the ones coordinator.py
imports from the api module. -/
inductive FetchResult where
  | resp (code : Nat) (body : Json) : FetchResult
  | excRateLimit (msg : String) : FetchResult
  | excAuth (msg : String) : FetchResult
  | excApi (msg : String) : FetchResult
  | excOther (msg : String) : FetchResult

/-- The generic `except Exception` handler's test:
`"429" in err_msg or "Rate Limit" in err_msg`. -/
def looksLikeRateLimit (msg : String) : Bool :=
  strContains msg "429" || strContains msg "Rate Limit"

/-- The chain `response.get("data", {}).get("chronothermostats", [])` followed by
the truthiness test and `chrono_list[0]` (coordinator.py lines
158-163), with `body` the response dict's `data` field.  Returns the
snapshot to store, `none` when the list is falsy, or the Python error
raised on an ill-typed body. -/
def extractChronoHead (body : Json) : Except PyErr (Option Json) := do
  let chronoList ← dictGet body "chronothermostats" (Json.arr [])
  if pyTruthy chronoList then
    let head ← pyIndexZero chronoList
    pure (some head)
  else
    pure none

/-- Result of processing one device inside `_async_update_data`'s loop:
the coordinator state afterwards, the accumulated `data` dict, and
`some reason` when `UpdateFailed` was raised (aborting the batch). -/
def pollStep (st : CoordState) (topologyId : String) (fetch : FetchResult)
    (acc : List (String × Json)) :
    CoordState × List (String × Json) × Option String :=
  match fetch with
  | .resp code body =>
    if code = 429 then
      -- `_trigger_rate_limit_abort` (lines 210-260) sets the cool-down
      -- interval and raises UpdateFailed.  Raised inside the `try`, that
      -- exception is re-caught by the generic `except Exception` handler,
      -- whose message test matches "Rate Limit", so the abort helper runs
      -- a second time (idempotently on the interval) and re-raises with
      -- the wrapped message, which then propagates.
      ({ st with updateInterval := st.coolDownInterval }, acc,
        some ("Rate Limit Abort: Generic Exception: "
          ++ "Rate Limit Abort: HTTP 429 Status Code returned"))
    else if code = 200 then
      -- Cool-down recovery (lines 144-156) happens before extraction.
      let st1 :=
        if st.updateInterval = st.coolDownInterval then
          { st with updateInterval := st.normalInterval }
        else st
      match extractChronoHead body with
      | .ok (some snapshot) => (st1, setKey acc topologyId snapshot, none)
      | .ok none => (st1, acc, none)
      | .error e =>
          -- raised inside the try: lands in `except Exception`.
          if looksLikeRateLimit e.message then
            ({ st1 with updateInterval := st1.coolDownInterval }, acc,
              some ("Rate Limit Abort: Generic Exception: " ++ e.message))
          else (st1, acc, none)
    else
      -- other status codes: warning logged, loop continues.
      (st, acc, none)
  | .excRateLimit msg =>
      ({ st with updateInterval := st.coolDownInterval }, acc,
        some ("Rate Limit Abort: " ++ msg))
  | .excAuth msg =>
      ({ st with authBroken := true }, acc, some ("Auth Error: " ++ msg))
  | .excApi _ => (st, acc, none)
  | .excOther msg =>
      if looksLikeRateLimit msg then
        ({ st with updateInterval := st.coolDownInterval }, acc,
          some ("Rate Limit Abort: Generic Exception: " ++ msg))
      else (st, acc, none)

/-- Outcome of one `_async_update_data` run: the returned `data` dict,
or the `UpdateFailed` reason. -/
inductive BatchOutcome where
  | ok (data : List (String × Json)) : BatchOutcome
  | failed (reason : String) : BatchOutcome

/-- The device loop of `_async_update_data` over the batch (each device
paired with what its fetch delivers), threading the coordinator state,
the accumulated data dict and the count of devices actually fetched.
The in-loop fail-fast check aborts before fetching when `auth_broken`
is set. -/
def pollBatch (st : CoordState) :
    List (String × FetchResult) → List (String × Json) → Nat →
      CoordState × BatchOutcome × Nat
  | [], acc, fetched => (st, .ok acc, fetched)
  | (topologyId, fetch) :: rest, acc, fetched =>
    if st.authBroken then
      (st, .failed "Authentication broke during update", fetched)
    else
      match pollStep st topologyId fetch acc with
      | (st', acc', none) => pollBatch st' rest acc' (fetched + 1)
      | (st', _, some reason) => (st', .failed reason, fetched + 1)

/-- Method `BticinoCoordinator._async_update_data` (coordinator.py lines
103-208): the up-front auth-broken fail-fast check, then the device
loop. -/
def asyncUpdateData (st : CoordState) (batch : List (String × FetchResult)) :
    CoordState × BatchOutcome × Nat :=
  if st.authBroken then (st, .failed "Authentication broken", 0)
  else pollBatch st batch [] 0

/-! ## coordinator.py — webhook side -/

/-- Method `BticinoCoordinator._get_topology_id` (coordinator.py lines
356-365): the `sender → plant → module → id` path with the
`receiver → oid` legacy fallback.  The `.get` chain raises
`AttributeError` when an intermediate value is not a dict. -/
def getTopologyId (chrono : Json) : Except PyErr (Option String) := do
  let sender ← dictGet chrono "sender" (Json.obj [])
  let plant ← dictGet sender "plant" (Json.obj [])
  let module_ ← dictGet plant "module" (Json.obj [])
  let path ← dictGet module_ "id" Json.null
  if pyTruthy path ∧ path.isStr then
    pure (match path with | .str s => some s | _ => none)
  else do
    let receiver ← dictGet chrono "receiver" (Json.obj [])
    let oid ← dictGet receiver "oid" Json.null
    pure (match oid with | .str s => some s | _ => none)

/-- Python `ch if isinstance(ch, list) else [ch] if isinstance(ch, dict) else []`. -/
def chronosOfValue : Json → List Json
  | .arr xs => xs
  | .obj kvs => [.obj kvs]
  | _ => []

/-- Method `BticinoCoordinator._extract_chronothermostats` (coordinator.py
lines 367-386): try `payload["data"]["chronothermostats"]`, then
`payload["chronothermostats"]`, else produce the empty list.  The
membership test `"chronothermostats" in data` raises `TypeError` when
`data` is not a container, and the subsequent indexing raises on
strings and lists. -/
def extractChronothermostats (payload : Json) : Except PyErr (List Json) :=
  if payload.isDict then do
    let data ← dictGet payload "data" (Json.obj [])
    let inData ← pyContains "chronothermostats" data
    if inData then
      let ch ← pyIndexStr data "chronothermostats"
      pure (chronosOfValue ch)
    else do
      let inPayload ← pyContains "chronothermostats" payload
      if inPayload then
        let ch ← pyIndexStr payload "chronothermostats"
        pure (chronosOfValue ch)
      else
        pure []
  else
    pure []

/-- Coordinator state relevant to the webhook path:
`self._last_webhook_mono` and `self.data` (which is `None` until first
initialised).  Monotonic timestamps and the debounce window are
modelled in integer time units; only their ordering matters to the
code. -/
structure WebhookState where
  lastWebhookMono : Int
  data : Option (List (String × Json))

/-- The per-item processing loop of `update_from_webhook` (coordinator.py
lines 322-344): skip non-dict items, extract the topology id, skip
items with no id or an unmonitored id, and whole-object-replace the
snapshot into the data dict, counting updates.  An exception raised by
the id extraction propagates out of the method, keeping the writes made
so far (the method has no try/except). -/
def webhookLoop (watched : List String) :
    List Json → List (String × Json) → List (String × Json) × Except PyErr Nat
  | [], data => (data, .ok 0)
  | chrono :: rest, data =>
    if chrono.isDict then
      match getTopologyId chrono with
      | .error e => (data, .error e)
      | .ok none => webhookLoop watched rest data
      | .ok (some topologyId) =>
          -- `if not topology_id: continue` also drops a falsy (empty) id.
          if topologyId ≠ "" ∧ topologyId ∈ watched then
            let (data', r) := webhookLoop watched rest (setKey data topologyId chrono)
            (data', r.map (· + 1))
          else
            webhookLoop watched rest data
    else
      webhookLoop watched rest data

/-- The body of `update_from_webhook` after the debounce stamp
(coordinator.py lines 295-354): validation, envelope extraction, data
initialisation and the processing loop, run on a state whose debounce
timestamp has already been advanced. -/
def webhookIngestBody (watched : List String) (st1 : WebhookState)
    (payload : Json) : WebhookState × Except PyErr Nat :=
  if payload.isDict then
    match extractChronothermostats payload with
    | .error e => (st1, .error e)
    | .ok chronos =>
      if chronos.isEmpty then
        (st1, .ok 0)
      else
        let (data', r) := webhookLoop watched chronos (st1.data.getD [])
        ({ st1 with data := some data' }, r)
  else
    (st1, .ok 0)

/-- Method `BticinoCoordinator.update_from_webhook` (coordinator.py lines
277-354) as a state transformer: given the configured debounce window,
the watched topology ids (the flattened `plant_map`), the current
state, the monotonic arrival time and the payload, it returns the new
state together with the update count — or the Python error raised,
with the state mutations already made (the debounce timestamp, the data
initialisation and any completed writes) still in place.  The debounce
timestamp is advanced by every ingest that passes the debounce check,
before any validation. -/
def updateFromWebhook (debounce : Int) (watched : List String)
    (st : WebhookState) (now : Int) (payload : Json) :
    WebhookState × Except PyErr Nat :=
  if now - st.lastWebhookMono < debounce then
    (st, .ok 0)
  else
    webhookIngestBody watched { st with lastWebhookMono := now } payload

/-! ## climate.py — `BticinoX8000ClimateEntity.async_set_temperature` -/

/-- Method `async_set_temperature` (climate.py lines 486-509): when a target
temperature is supplied, the upstream payload is built from the
entity's current `self._function` (read from the latest device
snapshot) with `mode` fixed to `"manual"` and the requested value under
`setPoint`; with no target temperature, no payload is built and no call
is made. -/
def asyncSetTemperaturePayload (currentFunction : String)
    (targetTemperature : Option Json) : Option Json :=
  match targetTemperature with
  | none => none
  | some value =>
      some (Json.obj
        [("function", Json.str currentFunction),
         ("mode", Json.str "manual"),
         ("setPoint", Json.obj
           [("value", value), ("unit", Json.str "°C")])])

/-! ## Helper lemmas -/

lemma lookupKey_setKey (t : List (String × Json)) (k : String) (v : Json) :
    lookupKey (setKey t k v) k = some v := by
  induction t with
  | nil => simp [setKey, lookupKey]
  | cons hd rest ih =>
      by_cases h : hd.1 = k
      · simp [setKey, lookupKey, h]
      · simp [setKey, lookupKey, h, ih]

lemma setKey_setKey (t : List (String × Json)) (k : String) (v w : Json) :
    setKey (setKey t k v) k w = setKey t k w := by
  induction t with
  | nil => simp [setKey]
  | cons hd rest ih =>
      by_cases h : hd.1 = k
      · simp [setKey, h]
      · simp [setKey, h, ih]

/-- Every Python error that `extractChronoHead` can raise has a message
that the coordinator's generic handler does not mistake for a rate
limit. -/
lemma extractChronoHead_error_msg (b : Json) (e : PyErr)
    (h : extractChronoHead b = .error e) :
    looksLikeRateLimit e.message = false := by
  cases b with
  | null =>
      simp [extractChronoHead, dictGet, Bind.bind, Except.bind] at h
      subst h
      exact (by decide :
        looksLikeRateLimit (PyErr.attributeError "NoneType" "get").message = false)
  | bool v =>
      simp [extractChronoHead, dictGet, Bind.bind, Except.bind] at h
      subst h
      exact (by decide :
        looksLikeRateLimit (PyErr.attributeError "bool" "get").message = false)
  | num q =>
      simp [extractChronoHead, dictGet, Bind.bind, Except.bind] at h
      subst h
      exact (by decide :
        looksLikeRateLimit (PyErr.attributeError "float" "get").message = false)
  | str s =>
      simp [extractChronoHead, dictGet, Bind.bind, Except.bind] at h
      subst h
      exact (by decide :
        looksLikeRateLimit (PyErr.attributeError "str" "get").message = false)
  | arr xs =>
      simp [extractChronoHead, dictGet, Bind.bind, Except.bind] at h
      subst h
      exact (by decide :
        looksLikeRateLimit (PyErr.attributeError "list" "get").message = false)
  | obj kvs =>
      simp only [extractChronoHead, dictGet, Bind.bind, Except.bind] at h
      cases hv : (lookupKey kvs "chronothermostats").getD (Json.arr []) with
      | null => rw [hv] at h; simp [pyTruthy, pure, Except.pure] at h
      | bool bb =>
          rw [hv] at h
          cases bb with
          | false => simp [pyTruthy, pure, Except.pure] at h
          | true =>
              simp [pyTruthy, pyIndexZero, Functor.map, Except.map] at h
              subst h
              exact (by decide :
                looksLikeRateLimit
                  (PyErr.typeError ("bool" ++ " object is not subscriptable")).message
                    = false)
      | num q =>
          rw [hv] at h
          by_cases hq : q = 0
          · simp [pyTruthy, hq, pure, Except.pure] at h
          · simp [pyTruthy, hq, pyIndexZero, Functor.map, Except.map] at h
            subst h
            exact (by decide :
              looksLikeRateLimit
                (PyErr.typeError ("float" ++ " object is not subscriptable")).message
                  = false)
      | str s =>
          rw [hv] at h
          by_cases hs : s = ""
          · simp [pyTruthy, hs, pure, Except.pure] at h
          · rw [if_pos (by simp [pyTruthy, hs])] at h
            cases hd : s.data with
            | nil =>
                rw [pyIndexZero, hd] at h
                simp [Functor.map, Except.map] at h
                subst h
                exact (by decide : looksLikeRateLimit PyErr.indexError.message = false)
            | cons c cs =>
                rw [pyIndexZero, hd] at h
                simp [Functor.map, Except.map, pure, Except.pure] at h
      | arr xs =>
          rw [hv] at h
          cases xs with
          | nil => simp [pyTruthy, pure, Except.pure, List.isEmpty] at h
          | cons x xs' =>
              simp [pyTruthy, pyIndexZero, Functor.map, Except.map, List.isEmpty,
                pure, Except.pure] at h
      | obj kvs' =>
          rw [hv] at h
          cases kvs' with
          | nil => simp [pyTruthy, pure, Except.pure, List.isEmpty] at h
          | cons kv rest =>
              simp [pyTruthy, pyIndexZero, Functor.map, Except.map, List.isEmpty] at h
              subst h
              exact (by decide : looksLikeRateLimit (PyErr.keyError "0").message = false)

/-- The update count and error status of the webhook processing loop
depend only on the payload items and the watched set, never on the data
dict it starts from. -/
lemma webhookLoop_snd_indep (watched : List String) (chronos : List Json) :
    ∀ d e, (webhookLoop watched chronos d).2 = (webhookLoop watched chronos e).2 := by
  induction chronos with
  | nil => intro d e; rfl
  | cons ch rest ih =>
      intro d e
      by_cases hd : ch.isDict
      · cases hg : getTopologyId ch with
        | error err => simp [webhookLoop, hd, hg]
        | ok tid =>
            cases tid with
            | none => simp [webhookLoop, hd, hg, ih d e]
            | some t =>
                by_cases hw : t ≠ "" ∧ t ∈ watched
                · simp only [webhookLoop, hd, if_pos hw, hg]
                  rw [ih (setKey d t ch) (setKey e t ch)]
                  simp
                · simp only [webhookLoop, hd, if_neg hw, hg]
                  exact ih d e
      · simp [webhookLoop, hd, ih d e]

/-- The ingest body never changes the debounce timestamp. -/
lemma webhookIngestBody_last (watched : List String) (st1 : WebhookState)
    (payload : Json) :
    (webhookIngestBody watched st1 payload).1.lastWebhookMono
      = st1.lastWebhookMono := by
  unfold webhookIngestBody
  by_cases hd : payload.isDict
  · simp only [hd, if_pos]
    cases hx : extractChronothermostats payload with
    | error e => rfl
    | ok chronos =>
        by_cases he : chronos.isEmpty
        · simp [he]
        · simp [he]
  · simp [hd]

/-- The count / error result of the ingest body depends only on the
payload and the watched set, never on the state it runs on. -/
lemma webhookIngestBody_snd_indep (watched : List String) (payload : Json) :
    ∀ s t, (webhookIngestBody watched s payload).2
      = (webhookIngestBody watched t payload).2 := by
  intro s t
  unfold webhookIngestBody
  by_cases hd : payload.isDict
  · simp only [hd, if_pos]
    cases hx : extractChronothermostats payload with
    | error e => rfl
    | ok chronos =>
        by_cases he : chronos.isEmpty
        · simp [he]
        · simp only [he, if_neg, Bool.false_eq_true, not_false_eq_true]
          rw [show (webhookLoop watched chronos (s.data.getD [])).2
              = (webhookLoop watched chronos (t.data.getD [])).2
            from webhookLoop_snd_indep watched chronos _ _]
  · simp [hd]

/-- Every ingest that passes the debounce check leaves the debounce
timestamp at its own arrival time, whatever the payload was. -/
lemma updateFromWebhook_last (debounce : Int) (watched : List String)
    (st : WebhookState) (now : Int) (payload : Json)
    (h : ¬(now - st.lastWebhookMono < debounce)) :
    (updateFromWebhook debounce watched st now payload).1.lastWebhookMono = now := by
  unfold updateFromWebhook
  rw [if_neg h, webhookIngestBody_last]

/-! ## Sample data for concrete scenarios -/

/-- A chronothermostat status object of the shape the upstream sends:
the standard `sender → plant → module → id` addressing plus status
fields. -/
def sampleChrono : Json :=
  Json.obj
    [("sender", Json.obj
        [("plant", Json.obj
            [("module", Json.obj [("id", Json.str "t1")])])]),
     ("function", Json.str "heating"),
     ("mode", Json.str "manual")]

/-- A webhook / status envelope of the direct shape
`{"chronothermostats": [...]}` carrying `sampleChrono`. -/
def sampleEnvelope : Json :=
  Json.obj [("chronothermostats", Json.arr [sampleChrono])]

/-- A stored credential whose `access_token_expires_on` is unix time 0,
i.e. long past expiry at any current time used below. -/
def expiredCredential : ApiData :=
  { accessToken := "Bearer expired"
    subscriptionKey := "sub"
    refreshTokenStr := "refresh"
    expiresOn := some 0 }

/-! ## Claim theorems -/

/-- C1, counterexample.  The claim says a second consecutive 401 after a
token refresh is fatal, with at most one refresh and no further network
retries.  Running `get_plants` against a trace answering 401, 401, 200
with both refreshes succeeding instead performs three network attempts
and two token refreshes and ends in success: after the second 401 the
code refreshes and retries again rather than failing. -/
theorem get_plants_second_401_retries_again :
    getPlants "sub" { header := mkHeader "Bearer t0" "sub" }
        [(401, Json.obj []), (401, Json.obj []),
         (200, Json.obj [("plants", Json.arr [])])]
        [RefreshOutcome.ok "Bearer t1", RefreshOutcome.ok "Bearer t2"]
      = (CallResult.success (Json.arr []), 3, 2) := rfl

/-- C1, amended.  `get_plants` retries on every 401 whose token refresh
succeeds, without any bound: a run of `n` consecutive 401s with
succeeding refreshes performs `n + 1` network attempts and `n` refreshes
and then succeeds; the recursion stops only when a refresh fails, in
which case the call returns the 401 error dict (no `AuthError` is
raised) with no further network attempts. -/
theorem get_plants_401_retry_unbounded :
    ∀ (n : Nat) (sub : String) (st : ApiState) (b plants : Json)
      (rest : List (Nat × Json)) (rs : List RefreshOutcome) (tok : String),
      getPlants sub st
          (List.replicate n (401, b) ++ (200, Json.obj [("plants", plants)]) :: rest)
          (List.replicate n (RefreshOutcome.ok tok) ++ rs)
        = (CallResult.success plants, n + 1, n)
      ∧ getPlants sub st ((401, b) :: rest) (RefreshOutcome.fail :: rs)
        = (CallResult.errorResult 401, 1, 1) := by
  intro n sub st b plants rest rs tok
  constructor
  · induction n generalizing st with
    | zero => simp [getPlants, lookupKey]
    | succ m ih =>
        rw [List.replicate_succ, List.replicate_succ]
        simp only [List.cons_append]
        simp [getPlants, handleUnauthorizedError, ih { header := mkHeader tok sub }]
  · simp [getPlants, handleUnauthorizedError]

/-- C2.  A 429 response makes `get_chronothermostat_status` return the
429 response dict after exactly one network attempt (one sent request,
zero refreshes, no retry), and the coordinator classifies that result
as a rate-limit error: processing it aborts with a rate-limit reason
and engages the cool-down interval. -/
theorem status_429_single_attempt_rate_limited :
    ∀ (sub : String) (st : ApiState) (b : Json) (rest : List (Nat × Json))
      (rs : List RefreshOutcome) (cst : CoordState) (tid : String)
      (acc : List (String × Json)),
      getChronothermostatStatus sub st ((429, b) :: rest) rs
        = (CallResult.resp 429 b, [st.header], 0)
      ∧ (pollStep cst tid (FetchResult.resp 429 b) acc).1.updateInterval
          = cst.coolDownInterval
      ∧ ∃ reason, (pollStep cst tid (FetchResult.resp 429 b) acc).2.2 = some reason
          ∧ looksLikeRateLimit reason = true := by
  intro sub st b rest rs cst tid acc
  refine ⟨by simp [getChronothermostatStatus], by simp [pollStep],
    "Rate Limit Abort: Generic Exception: "
      ++ "Rate Limit Abort: HTTP 429 Status Code returned",
    by simp [pollStep], by decide⟩

/-- C5.  The snapshot write used by both the poll path
(`data[topology_id] = chrono_list[0]`, coordinator.py line 163) and the
webhook path (`self.data[topology_id] = chrono`, line 342) is a
whole-object replace: after two successive writes to the same device
key, in either order of origin, the table holds exactly the second
snapshot — the result does not depend on the first snapshot in any way,
so no field of it survives. -/
theorem snapshot_write_whole_object_replace :
    ∀ (table : List (String × Json)) (deviceId : String) (s1 s2 : Json),
      lookupKey (setKey (setKey table deviceId s1) deviceId s2) deviceId = some s2
      ∧ setKey (setKey table deviceId s1) deviceId s2 = setKey table deviceId s2 := by
  intro table deviceId s1 s2
  refine ⟨?_, setKey_setKey table deviceId s1 s2⟩
  rw [setKey_setKey]
  exact lookupKey_setKey table deviceId s2

/-- C7.  When a target temperature is requested while the current
snapshot holds `function = "cooling"`, the upstream payload built by
`async_set_temperature` carries `function = "cooling"` (preserved),
`mode = "manual"` and the requested value under `setPoint.value`. -/
theorem set_temperature_preserves_function :
    ∀ (t p : Json),
      asyncSetTemperaturePayload "cooling" (some t) = some p →
      pyIndexStr p "function" = Except.ok (Json.str "cooling")
      ∧ pyIndexStr p "mode" = Except.ok (Json.str "manual")
      ∧ (pyIndexStr p "setPoint").bind (fun sp => pyIndexStr sp "value")
          = Except.ok t := by
  intro t p h
  simp only [asyncSetTemperaturePayload, Option.some.injEq] at h
  subst h
  refine ⟨by simp [pyIndexStr, lookupKey], by simp [pyIndexStr, lookupKey], ?_⟩
  simp [pyIndexStr, lookupKey, Except.bind]

/-- C7 witness: the concrete scenario `SetTemperature(21.5)` with the
snapshot in cooling mode. -/
theorem set_temperature_preserves_function_witness :
    pyIndexStr
        (Json.obj
          [("function", Json.str "cooling"), ("mode", Json.str "manual"),
           ("setPoint", Json.obj
             [("value", Json.num (43 / 2)), ("unit", Json.str "°C")])])
        "function" = Except.ok (Json.str "cooling")
    ∧ pyIndexStr
        (Json.obj
          [("function", Json.str "cooling"), ("mode", Json.str "manual"),
           ("setPoint", Json.obj
             [("value", Json.num (43 / 2)), ("unit", Json.str "°C")])])
        "mode" = Except.ok (Json.str "manual")
    ∧ (pyIndexStr
        (Json.obj
          [("function", Json.str "cooling"), ("mode", Json.str "manual"),
           ("setPoint", Json.obj
             [("value", Json.num (43 / 2)), ("unit", Json.str "°C")])])
        "setPoint").bind (fun sp => pyIndexStr sp "value")
          = Except.ok (Json.num (43 / 2)) :=
  set_temperature_preserves_function (Json.num (43 / 2)) _ rfl

/-- C8.  The webhook payload `{"data": 5}` — well-formed JSON with an
unexpected nesting — makes `update_from_webhook` raise `TypeError`
(from the membership test `"chronothermostats" in data` applied to a
number) instead of logging and returning with zero updates; the
exception propagates out of the ingest, after the debounce timestamp
was already advanced. -/
theorem webhook_ingest_raises_on_malformed_payload :
    updateFromWebhook 1 [] { lastWebhookMono := 0, data := none } 10
        (Json.obj [("data", Json.num 5)])
      = ({ lastWebhookMono := 10, data := none },
         Except.error (PyErr.typeError "argument of type float is not iterable")) := rfl

/-- C3.  The moment a device fetch in a poll batch returns status 429,
the batch aborts: the device count only accounts for that device (the
result is the same whatever devices remain after it, so none of them is
fetched), the run fails with the rate-limit abort reason, and the
polling interval is set to the cool-down interval. -/
theorem poll_batch_429_fail_fast :
    ∀ (st : CoordState) (tid : String) (b : Json)
      (post : List (String × FetchResult)) (acc : List (String × Json)) (n : Nat),
      st.authBroken = false →
      pollBatch st ((tid, FetchResult.resp 429 b) :: post) acc n
        = ({ st with updateInterval := st.coolDownInterval },
           BatchOutcome.failed
             ("Rate Limit Abort: Generic Exception: "
               ++ "Rate Limit Abort: HTTP 429 Status Code returned"),
           n + 1) := by
  intro st tid b post acc n h
  simp [pollBatch, pollStep, h]

/-- C3 witness: a batch of five devices where device 2 returns 429,
started from the freshly initialised coordinator with normal interval
15 and cool-down interval 60: exactly two devices are fetched, the
batch fails, and the interval is the cool-down interval. -/
theorem poll_batch_429_fail_fast_witness :
    asyncUpdateData (initCoordState 15 60)
        [("d1", FetchResult.resp 200 sampleEnvelope),
         ("d2", FetchResult.resp 429 (Json.obj [])),
         ("d3", FetchResult.resp 200 sampleEnvelope),
         ("d4", FetchResult.resp 200 sampleEnvelope),
         ("d5", FetchResult.resp 200 sampleEnvelope)]
      = ({ updateInterval := 60, normalInterval := 15, coolDownInterval := 60,
           authBroken := false },
         BatchOutcome.failed
           ("Rate Limit Abort: Generic Exception: "
             ++ "Rate Limit Abort: HTTP 429 Status Code returned"),
         2) :=
  poll_batch_429_fail_fast (initCoordState 15 60) "d2" (Json.obj [])
    [("d3", FetchResult.resp 200 sampleEnvelope),
     ("d4", FetchResult.resp 200 sampleEnvelope),
     ("d5", FetchResult.resp 200 sampleEnvelope)]
    [("d1", sampleChrono)] 1 rfl

/-- C4.  Recovery and initial state of the cool-down mechanism: when
the coordinator is in cool-down (its interval equals the cool-down
interval) and a device fetch returns status 200 — whatever the body —
processing that device restores the normal interval and does not abort,
so the batch goes on to the remaining devices with the restored
interval; and a freshly initialised coordinator starts with the normal
interval (cool-down disengaged) and unbroken auth. -/
theorem cooldown_recovery_on_success :
    ∀ (nrm cd : Nat) (st : CoordState) (tid : String) (b : Json)
      (rest : List (String × FetchResult)) (acc : List (String × Json)) (k : Nat),
      st.authBroken = false →
      st.updateInterval = st.coolDownInterval →
      ((pollStep st tid (FetchResult.resp 200 b) acc).1.updateInterval
          = st.normalInterval
       ∧ (pollStep st tid (FetchResult.resp 200 b) acc).2.2 = none
       ∧ pollBatch st ((tid, FetchResult.resp 200 b) :: rest) acc k
           = pollBatch (pollStep st tid (FetchResult.resp 200 b) acc).1 rest
               (pollStep st tid (FetchResult.resp 200 b) acc).2.1 (k + 1))
      ∧ (initCoordState nrm cd).updateInterval = nrm
      ∧ (initCoordState nrm cd).authBroken = false := by
  intro nrm cd st tid b rest acc k h1 h2
  have key : (pollStep st tid (FetchResult.resp 200 b) acc).1.updateInterval
        = st.normalInterval
      ∧ (pollStep st tid (FetchResult.resp 200 b) acc).2.2 = none := by
    cases hx : extractChronoHead b with
    | ok v => cases v <;> simp [pollStep, hx, h2]
    | error e =>
        have hm := extractChronoHead_error_msg b e hx
        simp [pollStep, hx, h2, hm]
  refine ⟨⟨key.1, key.2, ?_⟩, rfl, rfl⟩
  rcases hstep : pollStep st tid (FetchResult.resp 200 b) acc with ⟨st', acc', o⟩
  have ho : o = none := by
    have h' := key.2
    rw [hstep] at h'
    exact h'
  subst ho
  simp [pollBatch, h1, hstep]

/-- C4 witness: an engaged coordinator (interval 60 = cool-down, normal
15) whose first fetch returns 200 with an empty body: the step restores
interval 15, does not abort, and the batch continues with the remaining
device. -/
theorem cooldown_recovery_on_success_witness :
    ((pollStep { updateInterval := 60, normalInterval := 15, coolDownInterval := 60,
                 authBroken := false }
        "d1" (FetchResult.resp 200 (Json.obj [])) []).1.updateInterval = 15
     ∧ (pollStep { updateInterval := 60, normalInterval := 15, coolDownInterval := 60,
                   authBroken := false }
        "d1" (FetchResult.resp 200 (Json.obj [])) []).2.2 = none
     ∧ pollBatch
         { updateInterval := 60, normalInterval := 15, coolDownInterval := 60,
           authBroken := false }
         [("d1", FetchResult.resp 200 (Json.obj [])),
          ("d2", FetchResult.resp 200 (Json.obj []))] [] 0
         = pollBatch
             { updateInterval := 15, normalInterval := 15, coolDownInterval := 60,
               authBroken := false }
             [("d2", FetchResult.resp 200 (Json.obj []))] [] 1)
    ∧ (initCoordState 15 60).updateInterval = 15
    ∧ (initCoordState 15 60).authBroken = false :=
  cooldown_recovery_on_success 15 60
    { updateInterval := 60, normalInterval := 15, coolDownInterval := 60,
      authBroken := false }
    "d1" (Json.obj []) [("d2", FetchResult.resp 200 (Json.obj []))] [] 0 rfl rfl

/-- C6.  Ingesting the same webhook payload twice: after a first ingest
that passed the debounce check and returned normally, a second ingest
of the same payload arriving within the debounce window of the first is
dropped — state unchanged, zero updates, so the payload updated the
table at most once — while a second ingest arriving outside the window
performs exactly the same number of updates as the first did. -/
theorem webhook_debounce_idempotence :
    ∀ (debounce : Int) (watched : List String) (st : WebhookState)
      (now1 now2 : Int) (payload : Json) (st1 : WebhookState) (c1 : Nat),
      ¬(now1 - st.lastWebhookMono < debounce) →
      updateFromWebhook debounce watched st now1 payload = (st1, Except.ok c1) →
      ((now2 - now1 < debounce →
          updateFromWebhook debounce watched st1 now2 payload
            = (st1, Except.ok 0))
       ∧ (¬(now2 - now1 < debounce) →
          (updateFromWebhook debounce watched st1 now2 payload).2
            = Except.ok c1)) := by
  intro debounce watched st now1 now2 payload st1 c1 h1 h2
  have hlast : st1.lastWebhookMono = now1 := by
    have h := updateFromWebhook_last debounce watched st now1 payload h1
    rw [h2] at h
    exact h
  have h2' : webhookIngestBody watched { st with lastWebhookMono := now1 } payload
      = (st1, Except.ok c1) := by
    unfold updateFromWebhook at h2
    rw [if_neg h1] at h2
    exact h2
  constructor
  · intro hw
    unfold updateFromWebhook
    rw [hlast, if_pos hw]
  · intro hw
    unfold updateFromWebhook
    rw [hlast, if_neg hw]
    rw [webhookIngestBody_snd_indep watched payload
      { st1 with lastWebhookMono := now2 } { st with lastWebhookMono := now1 }]
    rw [h2']

/-- C6 witness: the sample envelope ingested at time 10 (accepted, one
update) and again at time 11 — inside the debounce window of 2 — is
dropped; ingested again at time 12 — outside the window — it performs
one update again. -/
theorem webhook_debounce_idempotence_witness :
    (updateFromWebhook 2 ["t1"]
        { lastWebhookMono := 10, data := some [("t1", sampleChrono)] } 11
        sampleEnvelope
      = ({ lastWebhookMono := 10, data := some [("t1", sampleChrono)] },
         Except.ok 0))
    ∧ (updateFromWebhook 2 ["t1"]
        { lastWebhookMono := 10, data := some [("t1", sampleChrono)] } 12
        sampleEnvelope).2 = Except.ok 1 :=
  ⟨(webhook_debounce_idempotence 2 ["t1"] { lastWebhookMono := 0, data := none }
      10 11 sampleEnvelope
      { lastWebhookMono := 10, data := some [("t1", sampleChrono)] } 1
      (by decide) rfl).1 (by decide),
   (webhook_debounce_idempotence 2 ["t1"] { lastWebhookMono := 0, data := none }
      10 12 sampleEnvelope
      { lastWebhookMono := 10, data := some [("t1", sampleChrono)] } 1
      (by decide) rfl).2 (by decide)⟩

/-- C9, counterexample.  A credential whose stored expiry (unix time 0)
is long past is still sent upstream: `get_chronothermostat_status`
performs its network attempt carrying the header built from that
credential — nothing in the call path consults `expires_on`. -/
theorem expired_credential_still_sent :
    expiredCredential.expiresOn.getD 0 < (1000 : Int)
    ∧ (getChronothermostatStatus expiredCredential.subscriptionKey
        { header := mkHeader expiredCredential.accessToken
            expiredCredential.subscriptionKey }
        [(200, Json.null)] []).2.1
      = [mkHeader "Bearer expired" "sub"] := ⟨by decide, rfl⟩

/-- C9, amended.  Expiry is consulted only by the scheduled background
refresh of the init module, not before each call: when the expiry is
far enough away, `schedule_token_refresh` schedules the refresh to fire
exactly 300 seconds before it (3000 seconds ahead when no expiry is
stored); the call path itself always sends the header built from the
stored credential as its first request, whatever the stored expiry is,
so a credential past expiry can be sent and is handled only reactively
through the 401-refresh path. -/
theorem token_expiry_consulted_by_scheduler_only :
    ∀ (e now : Int) (d : ApiData) (code : Nat) (body : Json)
      (rest : List (Nat × Json)) (rs : List RefreshOutcome),
      60 ≤ e - now - 300 →
      (now + scheduleTokenRefreshDelay (some e) now = e - 300
       ∧ scheduleTokenRefreshDelay none now = 3000
       ∧ (getChronothermostatStatus d.subscriptionKey
            { header := mkHeader d.accessToken d.subscriptionKey }
            ((code, body) :: rest) rs).2.1.head?
           = some (mkHeader d.accessToken d.subscriptionKey)) := by
  intro e now d code body rest rs h
  refine ⟨?_, rfl, ?_⟩
  · simp only [scheduleTokenRefreshDelay]
    rw [max_eq_left (le_trans (by norm_num) h)]
    ring
  · by_cases hc : code = 401
    · subst hc
      simp only [getChronothermostatStatus, if_pos]
      cases rs with
      | nil => rfl
      | cons ro rs' =>
          cases ro with
          | ok t => simp [handleUnauthorizedError]
          | fail => simp [handleUnauthorizedError]
    · simp [getChronothermostatStatus, hc]

/-- C9 witness: with expiry 4000 and current time 0 the refresh is
scheduled at time 3700 (300 seconds before expiry), and the expired
credential's call still sends its stored header first. -/
theorem token_expiry_consulted_by_scheduler_only_witness :
    (0 : Int) + scheduleTokenRefreshDelay (some 4000) 0 = 3700
    ∧ scheduleTokenRefreshDelay none 0 = 3000
    ∧ (getChronothermostatStatus expiredCredential.subscriptionKey
        { header := mkHeader expiredCredential.accessToken
            expiredCredential.subscriptionKey }
        [(200, Json.null)] []).2.1.head?
      = some (mkHeader expiredCredential.accessToken
          expiredCredential.subscriptionKey) :=
  token_expiry_consulted_by_scheduler_only 4000 0 expiredCredential 200 Json.null
    [] [] (by decide)

/-- C10.  Every ingest that passes the debounce check advances the
last-accepted timestamp to its own arrival time — whatever the payload
was, including invalid ones that produce zero updates — and
consequently any event arriving within the debounce window after it is
dropped unchanged with zero updates. -/
theorem debounce_stamp_advances_on_zero_update_ingest :
    ∀ (debounce : Int) (watched : List String) (st : WebhookState)
      (now : Int) (payload : Json),
      ¬(now - st.lastWebhookMono < debounce) →
      ((updateFromWebhook debounce watched st now payload).1.lastWebhookMono = now
       ∧ ∀ (now2 : Int) (payload2 : Json), now2 - now < debounce →
           updateFromWebhook debounce watched
               (updateFromWebhook debounce watched st now payload).1 now2 payload2
             = ((updateFromWebhook debounce watched st now payload).1,
                Except.ok 0)) := by
  intro debounce watched st now payload h
  have h1 := updateFromWebhook_last debounce watched st now payload h
  refine ⟨h1, ?_⟩
  intro now2 payload2 h2
  set s1 := (updateFromWebhook debounce watched st now payload).1 with hs1
  unfold updateFromWebhook
  rw [h1, if_pos h2]

/-- C10 witness: the junk payload `"junk"` (not even a dict) ingested
at time 10 produces zero updates yet advances the stamp to 10, and the
valid sample envelope arriving at time 11 — within the window of 2 —
is then dropped. -/
theorem debounce_stamp_advances_on_zero_update_ingest_witness :
    (updateFromWebhook 2 ["t1"] { lastWebhookMono := 0, data := none } 10
        (Json.str "junk")).1.lastWebhookMono = 10
    ∧ updateFromWebhook 2 ["t1"] ({ lastWebhookMono := 10, data := none } :
          WebhookState) 11 sampleEnvelope
        = (({ lastWebhookMono := 10, data := none } : WebhookState),
           Except.ok 0) :=
  ⟨(debounce_stamp_advances_on_zero_update_ingest 2 ["t1"]
      { lastWebhookMono := 0, data := none } 10 (Json.str "junk") (by decide)).1,
   (debounce_stamp_advances_on_zero_update_ingest 2 ["t1"]
      { lastWebhookMono := 0, data := none } 10 (Json.str "junk") (by decide)).2
     11 sampleEnvelope (by decide)⟩

end Bticino
